import Mathlib

/-!
Shallow embedding of `BSAStreamBuffers.py` (slaclab/rtbsa2).

Python floats are modelled as exact rationals (ℚ); the float `nan` sentinel is
modelled with `Option ℚ` (`none` = nan).  A Python call that raises an
exception is modelled by a `none` / `.error` result.  Pulse-id bookkeeping
fields are integers where the source only ever stores integers (`_p_latest`),
and rationals where the source stores floats (`_p_prev` starts as
`latest - ticks_per_sample`, a float).
-/

/-- Floor of a rational, computed by kernel-reducible floor division. -/
def ratFloor (x : ℚ) : ℤ := Int.fdiv x.num x.den

/-- Ceiling of a rational. -/
def ratCeil (x : ℚ) : ℤ := -ratFloor (-x)

/-- Model of Python `int(x)` applied to a real value: truncation toward zero. -/
def pyInt (x : ℚ) : ℤ := if 0 ≤ x then ratFloor x else ratCeil x

/-- Model of Python `x % m` on reals for a positive modulus `m`:
`x - m * floor (x / m)` (the result has the sign of the divisor). -/
def pyMod (x m : ℚ) : ℚ := x - m * ratFloor (x / m)

/-- `BSA_BUFFER_LENGTH = 2800` (src/BSAStreamBuffers.py line 38). -/
def BSA_BUFFER_LENGTH : ℕ := 2800

/-- `AC_FIDUCIAL_RATE = 360.0` (line 37): pulse-ID tick rate is 360 Hz. -/
def AC_FIDUCIAL_RATE : ℚ := 360

/-- `MAX_BUFRATES = {'NC': 120.0, 'SC': 102.0, 'F2': 30.0}` (line 36);
dictionary lookup, `none` models a Python `KeyError`. -/
def MAX_BUFRATES (key : String) : Option ℚ :=
  if key = "NC" then some 120
  else if key = "SC" then some 102
  else if key = "F2" then some 30
  else none

/-- `ns_to_pulse_ID(ns) = int(ns & 0x3fff)` (line 43): low 14 bits of the
nanoseconds field. -/
def ns_to_pulse_ID (ns : ℕ) : ℕ := ns &&& 0x3fff

/-- `numpy.roll(B, shift)` on a 1-d array: cyclic shift; a negative `shift`
rotates left.  numpy normalises the shift modulo the length. -/
def np_roll (B : List α) (shift : ℤ) : List α :=
  if B.length = 0 then B
  else
    let s : ℕ := ((-shift) % (B.length : ℤ)).toNat
    B.drop s ++ B.take s

/-- The numpy slice-assignment `B[-j:] = nan` for `j ≥ 1`: overwrites the last
`min j (length B)` entries with nan (Python slices clamp). -/
def assign_tail_nan (B : List (Option ℚ)) (j : ℕ) : List (Option ℚ) :=
  B.take (B.length - min j B.length) ++ List.replicate (min j B.length) none

/-- The numpy slice-assignment `B[-1] = v`; fails (IndexError) on an empty
array. -/
def set_last (B : List (Option ℚ)) (v : Option ℚ) : Option (List (Option ℚ)) :=
  if B.isEmpty then none else some (B.dropLast ++ [v])

/-- `_push_to_ring_buffer(B, value): B = roll(B, -1); B[-1] = value; return B`
(line 45). -/
def _push_to_ring_buffer (B : List (Option ℚ)) (value : Option ℚ) :
    Option (List (Option ℚ)) :=
  set_last (np_roll B (-1)) value

/-- The mutable fields of a `BSAStreamBuffer` that the update callbacks touch. -/
structure StreamState where
  channel : String
  beamline : String
  sample_rate : ℚ
  sample_spacing : Option ℚ
  ticks_per_sample : Option ℚ
  buffer_modulus : Option ℚ
  buffer : List (Option ℚ)
  p_prev : ℚ
  p_latest : ℤ
deriving DecidableEq

namespace BSAStreamBuffer

/-- `get_data` (lines 124-126): returns the buffer and the latest pulse ID. -/
def get_data (s : StreamState) : List (Option ℚ) × ℤ := (s.buffer, s.p_latest)

/-- `_rate_update(value)` (lines 157-162).  `none` models the `KeyError` a
bad beamline key would raise; `nan` derived quantities are `none`. -/
def _rate_update (value : ℚ) (s : StreamState) : Option StreamState :=
  match MAX_BUFRATES (s.beamline.take 2) with
  | none => none
  | some mx =>
    let r := min value mx
    some { s with
      sample_rate := r
      sample_spacing := if value = 0 then none else some (1 / r)
      ticks_per_sample := if value = 0 then none else some (AC_FIDUCIAL_RATE / r)
      buffer_modulus :=
        if value = 0 then none
        else some ((ratFloor ((16384 : ℚ) / (AC_FIDUCIAL_RATE / r)) : ℤ) : ℚ) }

/-- `_stream(value, nanoseconds)` (lines 128-152), the value-update callback.
`none` models an uncaught exception (e.g. `int(nan)` when the derived timing
constants are nan, or an empty-buffer push). -/
def _stream (value : ℚ) (nanoseconds : ℕ) (s : StreamState) :
    Option StreamState :=
  if s.sample_rate = 0 then some s
  else
    match s.ticks_per_sample with
    | none => none
    | some t =>
      if t = 0 then none
      else
        let p_new : ℕ := ns_to_pulse_ID nanoseconds
        let p_expected : ℚ := pyMod (s.p_prev + t) 16384
        let jump : ℤ := pyInt (((p_new : ℚ) - p_expected) / t)
        let b : List (Option ℚ) :=
          if 0 < jump then assign_tail_nan (np_roll s.buffer (-jump)) jump.toNat
          else s.buffer
        match _push_to_ring_buffer b (some value) with
        | none => none
        | some b2 =>
          some { s with buffer := b2, p_prev := (s.p_latest : ℚ),
                        p_latest := (p_new : ℤ) }

/-- The history-buffer suffix selection inside `_reinit` (lines 95-99),
as the source orders the tests:
`suffix = '1H'; if rate >= 10: suffix = 'TH'
elif rate >= MAX_BUFRATES[beamline[:2]]: suffix = 'HH' if SC else 'BR'`. -/
def reinit_suffix (sample_rate : ℚ) (beamline : String) : Option String :=
  if 10 ≤ sample_rate then some "TH"
  else
    match MAX_BUFRATES (beamline.take 2) with
    | none => none
    | some mx =>
      some (if mx ≤ sample_rate then
              (if beamline.take 2 = "SC" then "HH" else "BR")
            else "1H")

end BSAStreamBuffer

/-- Result of `dualBSAStreamBuffer.get_data`: either a fully written pair of
aligned rows, or (when `dp ≠ 0` but the resolved offset is `0`) the
uninitialised `ndarray((2, N))` that the source returns without writing. -/
inductive AlignResult where
  | rows : List (Option ℚ) → List (Option ℚ) → AlignResult
  | uninit : ℕ → AlignResult
deriving DecidableEq

namespace dualBSAStreamBuffer

/-- The rollover-comparison magnitude inside `get_data` (lines 256-258):
`min(abs(dshot_raw), abs(int(dshot_raw - buffer_modulus)))`. -/
def resolve_magnitude (dshot_raw : ℤ) (modulus : ℚ) : ℤ :=
  min |dshot_raw| |pyInt ((dshot_raw : ℚ) - modulus)|

/-- The signed shot offset of `get_data` (lines 256-258):
`sign(dp) * min(abs(int(dp / ticks)), abs(int(int(dp / ticks) - modulus)))`. -/
def resolve_shot_offset (dp : ℤ) (ticks : ℚ) (modulus : ℚ) : ℤ :=
  Int.sign dp * resolve_magnitude (pyInt ((dp : ℚ) / ticks)) modulus

/-- `dualBSAStreamBuffer.get_data` (lines 243-271), as a function of the two
snapshots `(b1, p1)`, `(b2, p2)`, the shared derived timing constants and the
previous `N_pts_sync` attribute.  Returns the aligned result, the new
`_p_latest` and the new `N_pts_sync`; `.error ()` models a raised exception
(nan timing constants, `ndarray` with a negative dimension, or a numpy
shape-mismatch on row assignment). -/
def get_data (b1 b2 : List (Option ℚ)) (p1 p2 : ℤ)
    (ticks modulus : Option ℚ) (n_old : ℤ) :
    Except Unit (AlignResult × ℤ × ℤ) :=
  let dp := p2 - p1
  let p_latest := min p1 p2
  if dp = 0 then
    if b1.length = b2.length then .ok (.rows b1 b2, p_latest, n_old)
    else .error ()
  else
    match ticks, modulus with
    | some t, some m =>
      if t = 0 then .error ()
      else
        let shot_offset := resolve_shot_offset dp t m
        let N : ℤ := (BSA_BUFFER_LENGTH : ℤ) - |shot_offset|
        if N < 0 then .error ()
        else if 0 < shot_offset then
          let rowA := b1.drop shot_offset.toNat
          let rowB := b2.take N.toNat
          if rowA.length = N.toNat ∧ rowB.length = N.toNat then
            .ok (.rows rowA rowB, p_latest, N)
          else .error ()
        else if shot_offset < 0 then
          let rowA := b1.take N.toNat
          let rowB := b2.drop (-shot_offset).toNat
          if rowA.length = N.toNat ∧ rowB.length = N.toNat then
            .ok (.rows rowA rowB, p_latest, N)
          else .error ()
        else .ok (.uninit N.toNat, p_latest, N)
    | _, _ => .error ()

end dualBSAStreamBuffer

/-! Numeric bridging lemmas. -/

theorem ratFloor_eq (x : ℚ) : ratFloor x = ⌊x⌋ := by
  rw [Rat.floor_def, ratFloor, Int.fdiv_eq_ediv _ (Int.natCast_nonneg x.den)]

theorem ratCeil_eq (x : ℚ) : ratCeil x = ⌈x⌉ := by
  rw [ratCeil, ratFloor_eq, Int.floor_neg, neg_neg]

theorem pyInt_eq (x : ℚ) : pyInt x = if 0 ≤ x then ⌊x⌋ else ⌈x⌉ := by
  rw [pyInt, ratFloor_eq, ratCeil_eq]

theorem pyInt_intCast (n : ℤ) : pyInt ((n : ℤ) : ℚ) = n := by
  rw [pyInt_eq]; split <;> simp

theorem ns_to_pulse_ID_eq_mod (ns : ℕ) : ns_to_pulse_ID ns = ns % 16384 := by
  have h := Nat.and_pow_two_sub_one_eq_mod ns 14
  norm_num at h
  exact h

/-! Basic facts about the ring-buffer primitives. -/

theorem np_roll_length (B : List α) (z : ℤ) : (np_roll B z).length = B.length := by
  unfold np_roll
  split
  · rfl
  · rename_i h
    have hpos : 0 < B.length := Nat.pos_of_ne_zero h
    have h2 : (-z) % (B.length : ℤ) < (B.length : ℤ) :=
      Int.emod_lt_of_pos _ (by exact_mod_cast hpos)
    have hle : ((-z) % (B.length : ℤ)).toNat ≤ B.length := by omega
    simp only [List.length_append, List.length_drop, List.length_take]
    omega

theorem np_roll_neg_natCast (B : List α) (k : ℕ) (h : B.length ≠ 0) :
    np_roll B (-(k : ℤ)) = B.drop (k % B.length) ++ B.take (k % B.length) := by
  unfold np_roll
  rw [if_neg h, neg_neg, ← Int.natCast_mod, Int.toNat_natCast]

theorem np_roll_neg_of_lt (B : List α) (k : ℕ) (h : k < B.length) :
    np_roll B (-(k : ℤ)) = B.drop k ++ B.take k := by
  rw [np_roll_neg_natCast B k (by omega), Nat.mod_eq_of_lt h]

theorem np_roll_neg_length_self (B : List α) :
    np_roll B (-(B.length : ℤ)) = B := by
  rcases Nat.eq_zero_or_pos B.length with h | h
  · unfold np_roll; rw [if_pos h]
  · rw [np_roll_neg_natCast B B.length (by omega), Nat.mod_self]
    simp

theorem assign_tail_nan_length (B : List (Option ℚ)) (j : ℕ) :
    (assign_tail_nan B j).length = B.length := by
  simp only [assign_tail_nan, List.length_append, List.length_take,
    List.length_replicate]
  omega

theorem assign_tail_nan_eq (B : List (Option ℚ)) (j : ℕ) (h : j ≤ B.length) :
    assign_tail_nan B j = B.take (B.length - j) ++ List.replicate j none := by
  rw [assign_tail_nan, Nat.min_eq_left h]

theorem assign_tail_nan_all (B : List (Option ℚ)) (j : ℕ) (h : B.length ≤ j) :
    assign_tail_nan B j = List.replicate B.length none := by
  rw [assign_tail_nan, Nat.min_eq_right h]
  simp

theorem _push_to_ring_buffer_eq (B : List (Option ℚ)) (v : Option ℚ)
    (h : B ≠ []) : _push_to_ring_buffer B v = some (B.drop 1 ++ [v]) := by
  match B with
  | [] => exact absurd rfl h
  | [x] => simp [_push_to_ring_buffer, np_roll, set_last]
  | x :: y :: xs =>
    unfold _push_to_ring_buffer np_roll set_last
    have hlen : (x :: y :: xs).length = xs.length + 2 := by simp
    have hne : ¬((x :: y :: xs).length = 0) := by simp
    rw [if_neg hne]
    have hmod : ((-(-1 : ℤ)) % ((x :: y :: xs).length : ℤ)).toNat = 1 := by
      rw [neg_neg, hlen, Int.emod_eq_of_lt (by omega) (by push_cast; omega)]
      rfl
    rw [hmod]
    change set_last ((y :: xs) ++ [x]) v = some ((y :: xs) ++ [v])
    rw [set_last, List.dropLast_concat]
    simp

/-! Claim theorems: single-stream update path. -/

/-- C6: when SampleRate is falsy (zero / "no beam"), every `_stream`
(OnValueUpdate) call is a no-op: the state — buffer, `previous_pulse_id`,
`latest_pulse_id` — is returned unchanged and no exception escapes. -/
theorem c6_no_rate_noop (value : ℚ) (ns : ℕ) (s : StreamState)
    (h : s.sample_rate = 0) : BSAStreamBuffer._stream value ns s = some s := by
  simp [BSAStreamBuffer._stream, h]

/-- C6 witness: a concrete zero-rate state is returned unchanged. -/
theorem c6_witness :
    BSAStreamBuffer._stream 1 42
      { channel := "c"
        beamline := "NC_HXR"
        sample_rate := 0
        sample_spacing := none
        ticks_per_sample := none
        buffer_modulus := none
        buffer := [some 7]
        p_prev := 0
        p_latest := 0 } =
    some
      { channel := "c"
        beamline := "NC_HXR"
        sample_rate := 0
        sample_spacing := none
        ticks_per_sample := none
        buffer_modulus := none
        buffer := [some 7]
        p_prev := 0
        p_latest := 0 } :=
  c6_no_rate_noop 1 42 _ rfl

/-- C10 (implicit claim): a `_stream` call whose computed pulse jump is zero
or negative is NOT discarded: no gap padding happens, the value is pushed
(evicting only the single oldest element), `previous_pulse_id` becomes the
old `latest_pulse_id`, and `latest_pulse_id` becomes the new (possibly
older) pulse id. -/
theorem c10_nonpositive_jump_still_pushes (value : ℚ) (ns : ℕ)
    (s : StreamState) (t : ℚ)
    (hrate : ¬(s.sample_rate = 0)) (hticks : s.ticks_per_sample = some t)
    (ht : ¬(t = 0)) (hbuf : s.buffer ≠ [])
    (hjump : pyInt ((((ns_to_pulse_ID ns : ℕ) : ℚ)
        - pyMod (s.p_prev + t) 16384) / t) ≤ 0) :
    BSAStreamBuffer._stream value ns s =
      some { s with buffer := s.buffer.drop 1 ++ [some value],
                    p_prev := (s.p_latest : ℚ),
                    p_latest := ((ns_to_pulse_ID ns : ℕ) : ℤ) } := by
  simp only [BSAStreamBuffer._stream, hticks]
  rw [if_neg hrate, if_neg ht, if_neg (not_lt.mpr hjump),
    _push_to_ring_buffer_eq s.buffer (some value) hbuf]

/-- C10 witness: a duplicate pulse id (jump = 0) still pushes the value. -/
theorem c10_witness :
    BSAStreamBuffer._stream 9 6
      { channel := "c"
        beamline := "NC_HXR"
        sample_rate := 60
        sample_spacing := some (1/60)
        ticks_per_sample := some 6
        buffer_modulus := some 2730
        buffer := [some 1, some 2, some 3]
        p_prev := 0
        p_latest := 6 } =
    some
      { channel := "c"
        beamline := "NC_HXR"
        sample_rate := 60
        sample_spacing := some (1/60)
        ticks_per_sample := some 6
        buffer_modulus := some 2730
        buffer := [some 1, some 2, some 3].drop 1 ++ [some 9]
        p_prev := ((6 : ℤ) : ℚ)
        p_latest := ((ns_to_pulse_ID 6 : ℕ) : ℤ) } := by
  have h := c10_nonpositive_jump_still_pushes 9 6
    { channel := "c"
      beamline := "NC_HXR"
      sample_rate := 60
      sample_spacing := some (1/60)
      ticks_per_sample := some 6
      buffer_modulus := some 2730
      buffer := [some 1, some 2, some 3]
      p_prev := 0
      p_latest := 6 } 6
    (by norm_num) rfl (by norm_num) (by simp)
    (by
      have h1 : ((ns_to_pulse_ID 6 : ℕ) : ℚ) = 6 := by
        rw [ns_to_pulse_ID_eq_mod]; norm_num
      have h2 : pyMod ((0 : ℚ) + 6) 16384 = 6 := by
        rw [pyMod, ratFloor_eq]
        norm_num
      rw [h1]
      simp only [h2]
      rw [show ((6 : ℚ) - 6) / 6 = ((0 : ℤ) : ℚ) by norm_num, pyInt_intCast])
  exact h

/-- C7: starting from a state whose buffer has exactly 2800 elements, every
completed `_stream` call preserves that length, so `get_data` returns a
2800-element buffer; and whenever the update is processed (rate defined),
`latest_pulse_id` is the pulse id paired with the newest (last) buffer
element, which is the value just pushed. -/
theorem c7_buffer_length_invariant (value : ℚ) (ns : ℕ) (s s' : StreamState)
    (hlen : s.buffer.length = BSA_BUFFER_LENGTH)
    (h : BSAStreamBuffer._stream value ns s = some s') :
    s'.buffer.length = BSA_BUFFER_LENGTH ∧
    (BSAStreamBuffer.get_data s').1.length = BSA_BUFFER_LENGTH ∧
    (¬(s.sample_rate = 0) →
      s'.p_latest = ((ns_to_pulse_ID ns : ℕ) : ℤ) ∧
      (BSAStreamBuffer.get_data s').1.getLast? = some (some value)) := by
  simp only [BSAStreamBuffer._stream] at h
  by_cases h0 : s.sample_rate = 0
  · rw [if_pos h0] at h
    have hs : s = s' := by exact Option.some.injEq _ _ |>.mp h
    subst hs
    exact ⟨hlen, hlen, fun hr => absurd h0 hr⟩
  · rw [if_neg h0] at h
    rcases hts : s.ticks_per_sample with _ | t
    · simp only [hts] at h
      exact Option.noConfusion h
    · simp only [hts] at h
      by_cases ht0 : t = 0
      · rw [if_pos ht0] at h; exact absurd h (by simp)
      · rw [if_neg ht0] at h
        have hblen : (if 0 < pyInt ((((ns_to_pulse_ID ns : ℕ) : ℚ)
              - pyMod (s.p_prev + t) 16384) / t) then
                assign_tail_nan (np_roll s.buffer
                  (-(pyInt ((((ns_to_pulse_ID ns : ℕ) : ℚ)
                    - pyMod (s.p_prev + t) 16384) / t))))
                  (pyInt ((((ns_to_pulse_ID ns : ℕ) : ℚ)
                    - pyMod (s.p_prev + t) 16384) / t)).toNat
              else s.buffer).length = BSA_BUFFER_LENGTH := by
          split
          · rw [assign_tail_nan_length, np_roll_length]; exact hlen
          · exact hlen
        have hbne : (if 0 < pyInt ((((ns_to_pulse_ID ns : ℕ) : ℚ)
              - pyMod (s.p_prev + t) 16384) / t) then
                assign_tail_nan (np_roll s.buffer
                  (-(pyInt ((((ns_to_pulse_ID ns : ℕ) : ℚ)
                    - pyMod (s.p_prev + t) 16384) / t))))
                  (pyInt ((((ns_to_pulse_ID ns : ℕ) : ℚ)
                    - pyMod (s.p_prev + t) 16384) / t)).toNat
              else s.buffer) ≠ [] := by
          intro hnil
          rw [hnil] at hblen
          simp [BSA_BUFFER_LENGTH] at hblen
        rw [_push_to_ring_buffer_eq _ _ hbne] at h
        simp only [Option.some.injEq] at h
        subst h
        refine ⟨?_, ?_, fun _ => ⟨rfl, ?_⟩⟩
        · simp only [List.length_append, List.length_drop, hblen,
            List.length_cons, List.length_nil]
          simp [BSA_BUFFER_LENGTH]
        · simp only [BSAStreamBuffer.get_data, List.length_append,
            List.length_drop, hblen, List.length_cons, List.length_nil]
          simp [BSA_BUFFER_LENGTH]
        · simp only [BSAStreamBuffer.get_data]
          exact List.getLast?_concat _

/-- C7 witness: the invariant applied to a concrete full-length state. -/
theorem c7_witness :
    (List.replicate 2800 (some (1 : ℚ))).length = BSA_BUFFER_LENGTH ∧
    ∀ s', BSAStreamBuffer._stream 9 6
      { channel := "c"
        beamline := "NC_HXR"
        sample_rate := 60
        sample_spacing := some (1/60)
        ticks_per_sample := some 6
        buffer_modulus := some 2730
        buffer := List.replicate 2800 (some 1)
        p_prev := 0
        p_latest := 6 } = some s' →
      s'.buffer.length = BSA_BUFFER_LENGTH :=
  ⟨by rw [List.length_replicate]; rfl, fun s' h =>
   (c7_buffer_length_invariant 9 6 _ s'
     (by rw [List.length_replicate]; rfl) h).1⟩

/-- C3 (amended): if a processed `_stream` call arrives with a pulse id
exactly `k` ticks-per-sample beyond the expected id, with `0 < k ≤ 2799`,
the resulting 2800-element buffer is the prior data shifted left, followed
by exactly `k` nan slots, with the newly pushed value in the final slot.
(The original claim allowed every `k > 0`; `k = 2800` is a counterexample,
see `c3_counterexample`.) -/
theorem c3_missed_pulses_padded (value : ℚ) (ns : ℕ) (s : StreamState)
    (t : ℚ) (k : ℕ)
    (hlen : s.buffer.length = 2800)
    (hrate : ¬(s.sample_rate = 0)) (hticks : s.ticks_per_sample = some t)
    (ht : 0 < t) (hk1 : 0 < k) (hk2 : k ≤ 2799)
    (hexact : ((ns_to_pulse_ID ns : ℕ) : ℚ)
        = pyMod (s.p_prev + t) 16384 + (k : ℚ) * t) :
    BSAStreamBuffer._stream value ns s =
      some { s with
        buffer := s.buffer.drop (k + 1) ++ List.replicate k none
                    ++ [some value]
        p_prev := (s.p_latest : ℚ)
        p_latest := ((ns_to_pulse_ID ns : ℕ) : ℤ) } := by
  have hjump : pyInt ((((ns_to_pulse_ID ns : ℕ) : ℚ)
      - pyMod (s.p_prev + t) 16384) / t) = (k : ℤ) := by
    rw [hexact]
    have h1 : pyMod (s.p_prev + t) 16384 + (k : ℚ) * t
        - pyMod (s.p_prev + t) 16384 = (k : ℚ) * t := by ring
    rw [h1, mul_div_cancel_right₀ _ (ne_of_gt ht),
      show ((k : ℕ) : ℚ) = (((k : ℕ) : ℤ) : ℚ) by push_cast; ring,
      pyInt_intCast]
  simp only [BSAStreamBuffer._stream, hticks]
  rw [if_neg hrate, if_neg (ne_of_gt ht), hjump]
  rw [if_pos (by exact_mod_cast hk1 : (0 : ℤ) < ((k : ℕ) : ℤ))]
  rw [Int.toNat_natCast]
  rw [np_roll_neg_of_lt s.buffer k (by omega)]
  have hdt : (s.buffer.drop k ++ s.buffer.take k).length = 2800 := by
    simp only [List.length_append, List.length_drop, List.length_take, hlen]
    omega
  rw [assign_tail_nan_eq _ k (by omega)]
  rw [hdt]
  have h2 : (2800 : ℕ) - k = (s.buffer.drop k).length := by
    simp only [List.length_drop, hlen]
  rw [h2, List.take_left]
  have h3 : (s.buffer.drop k ++ List.replicate k (none : Option ℚ)) ≠ [] := by
    intro hnil
    have := congrArg List.length hnil
    simp only [List.length_append, List.length_drop, List.length_replicate,
      hlen, List.length_nil] at this
    omega
  rw [_push_to_ring_buffer_eq _ _ h3]
  rw [List.drop_append_of_le_length (by simp only [List.length_drop, hlen]; omega)]
  rw [List.drop_drop]

/-- C3 witness: three pulses missed at 60 Hz (ticks-per-sample 6): the
buffer keeps the prior data from index 4 on, then three nans, then the new
value at the end. -/
theorem c3_witness :
    BSAStreamBuffer._stream 5 24
      { channel := "c"
        beamline := "NC_HXR"
        sample_rate := 60
        sample_spacing := some (1/60)
        ticks_per_sample := some 6
        buffer_modulus := some 2730
        buffer := List.replicate 2800 (some 1)
        p_prev := 0
        p_latest := 6 } =
    some
      { channel := "c"
        beamline := "NC_HXR"
        sample_rate := 60
        sample_spacing := some (1/60)
        ticks_per_sample := some 6
        buffer_modulus := some 2730
        buffer := (List.replicate 2800 (some (1:ℚ))).drop (3 + 1)
                    ++ List.replicate 3 none ++ [some 5]
        p_prev := ((6 : ℤ) : ℚ)
        p_latest := ((ns_to_pulse_ID 24 : ℕ) : ℤ) } := by
  have h := c3_missed_pulses_padded 5 24
    { channel := "c"
      beamline := "NC_HXR"
      sample_rate := 60
      sample_spacing := some (1/60)
      ticks_per_sample := some 6
      buffer_modulus := some 2730
      buffer := List.replicate 2800 (some 1)
      p_prev := 0
      p_latest := 6 } 6 3
    (by rw [List.length_replicate]) (by norm_num) rfl (by norm_num)
    (by norm_num) (by norm_num)
    (by
      have h1 : ((ns_to_pulse_ID 24 : ℕ) : ℚ) = 24 := by
        rw [ns_to_pulse_ID_eq_mod]; norm_num
      have h2 : pyMod ((0 : ℚ) + 6) 16384 = 6 := by
        rw [pyMod, ratFloor_eq]; norm_num
      rw [h1, h2]; norm_num)
  exact h

/-- Helper: a processed `_stream` call whose computed jump is exactly 2800
(a full buffer length) pads the whole buffer with nan before the push: the
roll is a no-op (numpy normalises the shift mod 2800) and the tail
assignment covers all 2800 slots, so only 2799 nans remain after the push. -/
theorem _stream_jump_full_pad (value : ℚ) (ns : ℕ) (s : StreamState) (t : ℚ)
    (hlen : s.buffer.length = 2800)
    (hrate : ¬(s.sample_rate = 0)) (hticks : s.ticks_per_sample = some t)
    (ht : ¬(t = 0))
    (hjump : pyInt ((((ns_to_pulse_ID ns : ℕ) : ℚ)
        - pyMod (s.p_prev + t) 16384) / t) = 2800) :
    BSAStreamBuffer._stream value ns s =
      some { s with
        buffer := List.replicate 2799 none ++ [some value]
        p_prev := (s.p_latest : ℚ)
        p_latest := ((ns_to_pulse_ID ns : ℕ) : ℤ) } := by
  simp only [BSAStreamBuffer._stream, hticks]
  rw [if_neg hrate, if_neg ht, hjump]
  rw [if_pos (by norm_num : (0 : ℤ) < 2800)]
  rw [show (2800 : ℤ).toNat = 2800 from rfl]
  have hroll : np_roll s.buffer (-(2800 : ℤ)) = s.buffer := by
    have h := np_roll_neg_length_self s.buffer
    rw [hlen] at h
    exact_mod_cast h
  rw [hroll, assign_tail_nan_all _ _ (by omega), hlen]
  have hne : (List.replicate 2800 (none : Option ℚ)) ≠ [] := by
    intro hnil
    have hl := congrArg List.length hnil
    rw [List.length_replicate, List.length_nil] at hl
    omega
  rw [_push_to_ring_buffer_eq _ _ hne]
  rw [show (List.replicate 2800 (none : Option ℚ)).drop 1
      = List.replicate 2799 none from rfl]

/-- C3 counterexample: the claim quantifies over every `k > 0`, but at
`k = 2800` (reachable at 120 Hz, ticks-per-sample 3) the resulting buffer
cannot contain 2800 trailing nans before the pushed value: the actual
result has 2799 nans, while the claimed shape has 2801 elements. -/
theorem c3_counterexample :
    BSAStreamBuffer._stream 5 8400
      { channel := "c"
        beamline := "NC_HXR"
        sample_rate := 120
        sample_spacing := some (1/120)
        ticks_per_sample := some 3
        buffer_modulus := some 5461
        buffer := List.replicate 2800 (some 1)
        p_prev := 16381
        p_latest := 16381 } =
    some
      { channel := "c"
        beamline := "NC_HXR"
        sample_rate := 120
        sample_spacing := some (1/120)
        ticks_per_sample := some 3
        buffer_modulus := some 5461
        buffer := List.replicate 2799 none ++ [some 5]
        p_prev := ((16381 : ℤ) : ℚ)
        p_latest := ((ns_to_pulse_ID 8400 : ℕ) : ℤ) } ∧
    (List.replicate 2799 (none : Option ℚ) ++ [some 5]) ≠
      (List.replicate 2800 (some (1 : ℚ))).drop (2800 + 1)
        ++ List.replicate 2800 none ++ [some 5] := by
  constructor
  · apply _stream_jump_full_pad 5 8400 _ 3 (by rw [List.length_replicate])
      (by norm_num) rfl (by norm_num)
    show pyInt ((((ns_to_pulse_ID 8400 : ℕ) : ℚ)
        - pyMod ((16381 : ℚ) + 3) 16384) / 3) = 2800
    have h1 : ((ns_to_pulse_ID 8400 : ℕ) : ℚ) = 8400 := by
      rw [ns_to_pulse_ID_eq_mod]; norm_num
    have h2 : pyMod ((16381 : ℚ) + 3) 16384 = 0 := by
      rw [pyMod, ratFloor_eq]; norm_num
    rw [h1, h2, show ((8400 : ℚ) - 0) / 3 = ((2800 : ℤ) : ℚ) by norm_num,
      pyInt_intCast]
  · intro h
    have hl := congrArg List.length h
    simp only [List.length_append, List.length_replicate, List.length_cons,
      List.length_nil, List.length_drop] at hl
    omega

/-! Claim theorems: rate updates and re-initialisation. -/

/-- C8: every `_rate_update` (OnRateUpdate) call on a valid beamline sets
`sample_rate = min(value, facility_max_rate)`; when `value` is zero (falsy)
the three derived quantities all become nan; and the buffer contents are
unchanged in every case. -/
theorem c8_rate_update (value : ℚ) (s : StreamState) (mx : ℚ)
    (h : MAX_BUFRATES (s.beamline.take 2) = some mx) :
    ∃ s', BSAStreamBuffer._rate_update value s = some s' ∧
      s'.sample_rate = min value mx ∧
      (value = 0 → s'.sample_spacing = none ∧ s'.ticks_per_sample = none ∧
        s'.buffer_modulus = none) ∧
      s'.buffer = s.buffer := by
  simp only [BSAStreamBuffer._rate_update, h]
  refine ⟨_, rfl, rfl, fun hv => ?_, rfl⟩
  subst hv
  simp

/-- C8 witness: a zero-rate update on an NC beamline nan-s the derived
quantities and leaves the buffer alone. -/
theorem c8_witness :
    ∃ s', BSAStreamBuffer._rate_update 0
      { channel := "c"
        beamline := "NC_HXR"
        sample_rate := 60
        sample_spacing := some (1/60)
        ticks_per_sample := some 6
        buffer_modulus := some 2730
        buffer := [some 1, some 2]
        p_prev := 0
        p_latest := 6 } = some s' ∧
      s'.sample_rate = min 0 120 ∧
      ((0 : ℚ) = 0 → s'.sample_spacing = none ∧ s'.ticks_per_sample = none ∧
        s'.buffer_modulus = none) ∧
      s'.buffer = [some 1, some 2] :=
  c8_rate_update 0
    { channel := "c"
      beamline := "NC_HXR"
      sample_rate := 60
      sample_spacing := some (1/60)
      ticks_per_sample := some 6
      buffer_modulus := some 2730
      buffer := [some 1, some 2]
      p_prev := 0
      p_latest := 6 } 120 (by decide)

/-- C9 (code bug): the source's suffix selection tests `rate >= 10` BEFORE
`rate >= facility_max`, so at-or-above the facility maximum (here 102 on an
SC beamline) it still yields "TH", never the "HH"/"BR" bucket the claim
(and the dead `elif` branch) describe. -/
theorem c9_suffix_at_max_rate_is_TH :
    BSAStreamBuffer.reinit_suffix 102 "SC_HXR" = some "TH" ∧
    BSAStreamBuffer.reinit_suffix 102 "SC_HXR" ≠ some "HH" := by
  have h : BSAStreamBuffer.reinit_suffix 102 "SC_HXR" = some "TH" := by
    rw [BSAStreamBuffer.reinit_suffix, if_pos (by norm_num : (10:ℚ) ≤ 102)]
  exact ⟨h, by rw [h]; simp⟩

/-! Claim theorems: dual-stream offset resolution. -/

theorem pyInt_nonpos (x : ℚ) (hx : x ≤ 0) : pyInt x ≤ 0 := by
  rw [pyInt_eq]
  split
  · exact Int.floor_nonpos hx
  · exact Int.ceil_le.mpr (by exact_mod_cast hx)

/-- C1 (amended): with `ticks_per_sample = 6` and `buffer_modulus = 2730`,
any `dp` whose raw shot delta truncates to 2727 (so the rollover delta is
−3) resolves to the signed shot offset +3, NOT −3: the code keeps the sign
of the raw `dp` (`sign(dp) = +1`) and only takes the wrapped magnitude, so
it reports "A lags B by 3" instead of "B lags A by 3". -/
theorem c1_amended (dp : ℤ)
    (h : pyInt ((dp : ℚ) / 6) = 2727) :
    dualBSAStreamBuffer.resolve_shot_offset dp 6 2730 = 3 := by
  have hdp : 0 < dp := by
    by_contra hle
    push_neg at hle
    have hx : (dp : ℚ) / 6 ≤ 0 :=
      div_nonpos_of_nonpos_of_nonneg (by exact_mod_cast hle) (by norm_num)
    have := pyInt_nonpos _ hx
    omega
  rw [dualBSAStreamBuffer.resolve_shot_offset,
    dualBSAStreamBuffer.resolve_magnitude, h]
  have h2 : pyInt (((2727 : ℤ) : ℚ) - 2730) = -3 := by
    rw [show ((2727 : ℤ) : ℚ) - 2730 = ((-3 : ℤ) : ℚ) by push_cast; norm_num,
      pyInt_intCast]
  rw [h2, Int.sign_eq_one_of_pos hdp]
  decide

/-- C1 witness: the concrete `dp = 16362` has raw shot delta 2727 and
resolves to +3. -/
theorem c1_witness :
    pyInt (((16362 : ℤ) : ℚ) / 6) = 2727 ∧
    dualBSAStreamBuffer.resolve_shot_offset 16362 6 2730 = 3 := by
  have h : pyInt (((16362 : ℤ) : ℚ) / 6) = 2727 := by
    rw [show ((16362 : ℤ) : ℚ) / 6 = ((2727 : ℤ) : ℚ) by push_cast; norm_num,
      pyInt_intCast]
  exact ⟨h, c1_amended 16362 h⟩

/-- C1 counterexample: at `dp = 16362` the raw shot delta is 2727, the
rollover delta is −3, yet the resolved offset is not −3 (it is +3). -/
theorem c1_counterexample :
    pyInt (((16362 : ℤ) : ℚ) / 6) = 2727 ∧
    pyInt (((2727 : ℤ) : ℚ) - 2730) = -3 ∧
    dualBSAStreamBuffer.resolve_shot_offset 16362 6 2730 ≠ -3 := by
  have e1 : pyInt (((16362 : ℤ) : ℚ) / 6) = 2727 := by
    rw [show ((16362 : ℤ) : ℚ) / 6 = ((2727 : ℤ) : ℚ) by push_cast; norm_num,
      pyInt_intCast]
  have e2 : pyInt (((2727 : ℤ) : ℚ) - 2730) = -3 := by
    rw [show ((2727 : ℤ) : ℚ) - 2730 = ((-3 : ℤ) : ℚ) by push_cast; norm_num,
      pyInt_intCast]
  refine ⟨e1, e2, ?_⟩
  rw [dualBSAStreamBuffer.resolve_shot_offset,
    dualBSAStreamBuffer.resolve_magnitude, e1, e2]
  decide

/-- C2 (amended): for every integer buffer modulus `M ≥ 6`, a raw shot
delta of `M + 3` resolves to magnitude 3, but a raw shot delta of
`−(M − 3)` resolves to magnitude `M − 3`, not 3: the code's rollover
comparison only subtracts the modulus, never adds it, so negative raw
deltas receive no wraparound correction and the claimed symmetry fails. -/
theorem c2_amended (M : ℤ) (h : 6 ≤ M) :
    dualBSAStreamBuffer.resolve_magnitude (M + 3) ((M : ℤ) : ℚ) = 3 ∧
    dualBSAStreamBuffer.resolve_magnitude (-(M - 3)) ((M : ℤ) : ℚ) = M - 3 := by
  constructor
  · rw [dualBSAStreamBuffer.resolve_magnitude]
    rw [show ((M + 3 : ℤ) : ℚ) - ((M : ℤ) : ℚ) = ((3 : ℤ) : ℚ) by
      push_cast; ring, pyInt_intCast]
    rw [abs_of_nonneg (by omega : (0 : ℤ) ≤ M + 3),
      show |(3 : ℤ)| = 3 from rfl]
    exact min_eq_right (by omega)
  · rw [dualBSAStreamBuffer.resolve_magnitude]
    rw [show ((-(M - 3) : ℤ) : ℚ) - ((M : ℤ) : ℚ) = ((3 - 2 * M : ℤ) : ℚ) by
      push_cast; ring, pyInt_intCast]
    rw [abs_of_nonpos (by omega : -(M - 3) ≤ 0),
      abs_of_nonpos (by omega : 3 - 2 * M ≤ 0)]
    rw [show -(-(M - 3)) = M - 3 by ring, show -(3 - 2 * M) = 2 * M - 3 by ring]
    exact min_eq_left (by omega)

/-- C2 witness: at the spec's own modulus `M = 2730`, raw delta 2733
resolves to 3 while raw delta −2727 resolves to 2727. -/
theorem c2_witness :
    dualBSAStreamBuffer.resolve_magnitude (2730 + 3) (((2730 : ℤ) : ℤ) : ℚ) = 3 ∧
    dualBSAStreamBuffer.resolve_magnitude (-(2730 - 3)) (((2730 : ℤ) : ℤ) : ℚ)
      = 2730 - 3 :=
  c2_amended 2730 (by norm_num)

/-- C2 counterexample: the claimed symmetry fails at `M = 2730`: the two
raw deltas resolve to different magnitudes (3 versus 2727). -/
theorem c2_counterexample :
    dualBSAStreamBuffer.resolve_magnitude 2733 2730 ≠
      dualBSAStreamBuffer.resolve_magnitude (-2727) 2730 := by
  have e1 : dualBSAStreamBuffer.resolve_magnitude 2733 2730 = 3 := by
    rw [dualBSAStreamBuffer.resolve_magnitude,
      show ((2733 : ℤ) : ℚ) - 2730 = ((3 : ℤ) : ℚ) by push_cast; norm_num,
      pyInt_intCast]
    decide
  have e2 : dualBSAStreamBuffer.resolve_magnitude (-2727) 2730 = 2727 := by
    rw [dualBSAStreamBuffer.resolve_magnitude,
      show ((-2727 : ℤ) : ℚ) - 2730 = ((-5457 : ℤ) : ℚ) by push_cast; norm_num,
      pyInt_intCast]
    decide
  rw [e1, e2]
  decide

/-- C5: whenever the resolved offset `o` satisfies `0 < o < 2800` and both
snapshots hold 2800 points, `get_data` (Align) returns
`synced_point_count = 2800 − o`, an A-row equal to the last `2800 − o`
elements of A's raw buffer (`b1.drop o`), a B-row equal to the first
`2800 − o` elements of B's raw buffer (`b2.take (2800 − o)`), and
`latest_synced_pulse_id = min p1 p2`. -/
theorem c5_positive_offset_alignment (b1 b2 : List (Option ℚ)) (p1 p2 : ℤ)
    (t m : ℚ) (n_old : ℤ) (o : ℤ)
    (hb1 : b1.length = 2800) (hb2 : b2.length = 2800)
    (hdp : ¬(p2 - p1 = 0)) (ht : ¬(t = 0))
    (ho : dualBSAStreamBuffer.resolve_shot_offset (p2 - p1) t m = o)
    (ho1 : 0 < o) (ho2 : o < 2800) :
    dualBSAStreamBuffer.get_data b1 b2 p1 p2 (some t) (some m) n_old =
      .ok (.rows (b1.drop o.toNat) (b2.take ((2800 : ℤ) - o).toNat),
           min p1 p2, (2800 : ℤ) - o) := by
  simp only [dualBSAStreamBuffer.get_data]
  rw [if_neg hdp, if_neg ht, ho,
    show ((BSA_BUFFER_LENGTH : ℕ) : ℤ) = 2800 from rfl,
    abs_of_pos ho1,
    if_neg (by omega : ¬((2800 : ℤ) - o < 0)),
    if_pos ho1]
  have hA : (b1.drop o.toNat).length = ((2800 : ℤ) - o).toNat := by
    rw [List.length_drop, hb1]; omega
  have hB : (b2.take ((2800 : ℤ) - o).toNat).length = ((2800 : ℤ) - o).toNat := by
    rw [List.length_take, hb2]
    omega
  rw [if_pos ⟨hA, hB⟩]

/-- C5 witness: offset 3 at 60 Hz: A-row drops its 3 oldest points, B-row
keeps its first 2797 points, 2797 synced points, pulse id `min 0 18`. -/
theorem c5_witness :
    dualBSAStreamBuffer.get_data (List.replicate 2800 (some 1))
      (List.replicate 2800 (some 2)) 0 18 (some 6) (some 2730) (-1) =
      .ok (.rows ((List.replicate 2800 (some (1 : ℚ))).drop (3 : ℤ).toNat)
            ((List.replicate 2800 (some (2 : ℚ))).take ((2800 : ℤ) - 3).toNat),
           min 0 18, (2800 : ℤ) - 3) := by
  have ho : dualBSAStreamBuffer.resolve_shot_offset ((18 : ℤ) - 0) 6 2730 = 3 := by
    rw [dualBSAStreamBuffer.resolve_shot_offset,
      dualBSAStreamBuffer.resolve_magnitude,
      show (((18 : ℤ) - 0 : ℤ) : ℚ) / 6 = ((3 : ℤ) : ℚ) by push_cast; norm_num,
      pyInt_intCast,
      show ((3 : ℤ) : ℚ) - 2730 = ((-2727 : ℤ) : ℚ) by push_cast; norm_num,
      pyInt_intCast]
    decide
  exact c5_positive_offset_alignment _ _ 0 18 6 2730 (-1) 3
    (by rw [List.length_replicate]) (by rw [List.length_replicate])
    (by norm_num) (by norm_num) ho (by norm_num) (by norm_num)

/-- C4 (amended): when the resolved offset magnitude exceeds 2800, `get_data`
(Align) RAISES (numpy refuses the negative array dimension
`2800 − |offset| < 0`); only at magnitude exactly 2800 does it return the
degenerate empty result `(.rows [] [], min p1 p2, 0)` without error.  The
original claim said every magnitude ≥ 2800 is returned, never thrown. -/
theorem c4_amended (b1 b2 : List (Option ℚ)) (p1 p2 : ℤ) (t m : ℚ)
    (n_old : ℤ)
    (hdp : ¬(p2 - p1 = 0)) (ht : ¬(t = 0)) :
    ((2800 : ℤ) < |dualBSAStreamBuffer.resolve_shot_offset (p2 - p1) t m| →
      dualBSAStreamBuffer.get_data b1 b2 p1 p2 (some t) (some m) n_old
        = .error ()) ∧
    (|dualBSAStreamBuffer.resolve_shot_offset (p2 - p1) t m| = 2800 →
      b1.length = 2800 → b2.length = 2800 →
      dualBSAStreamBuffer.get_data b1 b2 p1 p2 (some t) (some m) n_old
        = .ok (.rows [] [], min p1 p2, 0)) := by
  constructor
  · intro habs
    simp only [dualBSAStreamBuffer.get_data]
    rw [if_neg hdp, if_neg ht,
      show ((BSA_BUFFER_LENGTH : ℕ) : ℤ) = 2800 from rfl,
      if_pos (by omega :
        (2800 : ℤ) - |dualBSAStreamBuffer.resolve_shot_offset (p2 - p1) t m| < 0)]
  · intro habs hb1 hb2
    simp only [dualBSAStreamBuffer.get_data]
    rw [if_neg hdp, if_neg ht,
      show ((BSA_BUFFER_LENGTH : ℕ) : ℤ) = 2800 from rfl, habs,
      show (2800 : ℤ) - 2800 = 0 from by norm_num,
      if_neg (by norm_num : ¬((0 : ℤ) < 0))]
    rcases (abs_eq (by norm_num : (0 : ℤ) ≤ 2800)).mp habs with ho | ho
    · rw [ho, if_pos (by norm_num : (0 : ℤ) < 2800)]
      have e1 : b1.drop (2800 : ℤ).toNat = [] :=
        List.drop_of_length_le (by rw [hb1]; norm_num)
      have e2 : b2.take (0 : ℤ).toNat = [] := by
        rw [show (0 : ℤ).toNat = 0 from rfl, List.take_zero]
      rw [e1, e2, if_pos ⟨rfl, rfl⟩]
    · rw [ho,
        if_neg (by norm_num : ¬((0 : ℤ) < -2800)),
        if_pos (by norm_num : (-2800 : ℤ) < 0)]
      have e1 : b1.take (0 : ℤ).toNat = [] := by
        rw [show (0 : ℤ).toNat = 0 from rfl, List.take_zero]
      have e2 : b2.drop (-(-2800) : ℤ).toNat = [] :=
        List.drop_of_length_le (by rw [hb2]; norm_num)
      rw [e1, e2, if_pos ⟨rfl, rfl⟩]

/-- C4 witness: a resolved offset of exactly −2800 (dp = −8401 at 120 Hz)
returns the degenerate empty result without raising. -/
theorem c4_witness :
    dualBSAStreamBuffer.get_data (List.replicate 2800 (some 0))
      (List.replicate 2800 (some 0)) 8401 0 (some 3) (some 5461) 7 =
      .ok (.rows [] [], min 8401 0, 0) := by
  have ho : dualBSAStreamBuffer.resolve_shot_offset ((0 : ℤ) - 8401) 3 5461
      = -2800 := by
    rw [dualBSAStreamBuffer.resolve_shot_offset,
      dualBSAStreamBuffer.resolve_magnitude,
      show (((0 : ℤ) - 8401 : ℤ) : ℚ) / 3 = (-8401 : ℚ) / 3 by push_cast; ring]
    rw [show pyInt ((-8401 : ℚ) / 3) = -2800 from by
      rw [pyInt_eq]; norm_num [Int.ceil_eq_iff]]
    rw [show ((-2800 : ℤ) : ℚ) - 5461 = ((-8261 : ℤ) : ℚ) by push_cast; norm_num,
      pyInt_intCast]
    decide
  exact (c4_amended (List.replicate 2800 (some 0)) (List.replicate 2800 (some 0))
    8401 0 3 5461 7 (by norm_num) (by norm_num)).2
    (by rw [ho]; decide)
    (by rw [List.length_replicate]) (by rw [List.length_replicate])

/-- C4 counterexample: a resolved offset magnitude of 5461 > 2800
(dp = −16383 at 120 Hz) makes `get_data` raise, contradicting the claim
that offsets at or above 2800 never throw. -/
theorem c4_counterexample :
    dualBSAStreamBuffer.get_data (List.replicate 2800 (some 0))
      (List.replicate 2800 (some 0)) 16383 0 (some 3) (some 5461) 0
      = .error () := by
  have ho : dualBSAStreamBuffer.resolve_shot_offset ((0 : ℤ) - 16383) 3 5461
      = -5461 := by
    rw [dualBSAStreamBuffer.resolve_shot_offset,
      dualBSAStreamBuffer.resolve_magnitude,
      show (((0 : ℤ) - 16383 : ℤ) : ℚ) / 3 = ((-5461 : ℤ) : ℚ) by
        push_cast; norm_num,
      pyInt_intCast,
      show ((-5461 : ℤ) : ℚ) - 5461 = ((-10922 : ℤ) : ℚ) by push_cast; norm_num,
      pyInt_intCast]
    decide
  simp only [dualBSAStreamBuffer.get_data]
  rw [if_neg (by norm_num : ¬((0 : ℤ) - 16383 = 0)),
    if_neg (by norm_num : ¬((3 : ℚ) = 0)), ho,
    show ((BSA_BUFFER_LENGTH : ℕ) : ℤ) = 2800 from rfl,
    if_pos (by norm_num : (2800 : ℤ) - |(-5461 : ℤ)| < 0)]
